import Mathlib

/-!
Shallow embedding of the multi-source stock research core of the repository
(src/agents/data_collector.py, src/agents/analyst.py,
src/graph/orchestrator.py).  External I/O (HTTP calls, the DuckDuckGo search,
the Wikipedia client, the language model) is modelled by passing the raw data
those calls would return as explicit arguments; an exception raised inside an
external call is modelled by the AdapterOutcome.exn constructor.  Numeric
values travel as rationals.
-/

namespace StockPulse

/-- Lowercase a string code point by code point (models Python str.lower on
the ASCII keywords used by the extractors). -/
def lowerStr (s : String) : String :=
  String.mk (s.data.map Char.toLower)

/-- Keep the first n characters (models Python slicing s[:n], which slices by
code points). -/
def strTake (s : String) (n : Nat) : String :=
  String.mk (s.data.take n)

/-- Uppercase and keep the first six characters (models the expression
company_name.upper()[:6] used to synthesize a ticker). -/
def upper6 (s : String) : String :=
  String.mk ((s.data.map Char.toUpper).take 6)

/-- List-of-characters prefix test. -/
def isPre : List Char → List Char → Bool
  | [], _ => true
  | _ :: _, [] => false
  | a :: as, b :: bs => a == b && isPre as bs

/-- Substring occurrence test on character lists. -/
def containsSubL (needle : List Char) : List Char → Bool
  | [] => isPre needle []
  | c :: rest => isPre needle (c :: rest) || containsSubL needle rest

/-- Substring containment: models the Python expression needle in hay on
strings. -/
def containsSub (needle hay : String) : Bool :=
  containsSubL needle.data hay.data

/-- Round a rational to the nearest integer, ties to even; this is the
rounding performed by the two-decimal Python float format on the numeric
values, which the embedding carries as exact rationals. -/
def roundHE (q : ℚ) : ℤ :=
  let f := ⌊q⌋
  let r := q - (f : ℚ)
  if r < 1 / 2 then f
  else if 1 / 2 < r then f + 1
  else if f % 2 = 0 then f else f + 1

/-- Render a value below one hundred with exactly two digits (the cents part
of the two-decimal format). -/
def pad2 (k : Nat) : String :=
  (if k < 10 then "0" else "") ++ Nat.repr k

/-- Insert a comma after every three characters of a reversed digit list. -/
def commasRev : List Char → List Char
  | d1 :: d2 :: d3 :: d4 :: rest => d1 :: d2 :: d3 :: ',' :: commasRev (d4 :: rest)
  | l => l

/-- Decimal digits of a natural number with thousands separators (the comma
flag of the Python format specification). -/
def groupDigits (n : Nat) : String :=
  String.mk ((commasRev (Nat.toDigits 10 n).reverse).reverse)

/-- Currency display of a price: rupee sign, thousands separators, exactly
two decimals.  Models the Python f-string that formats price with the comma
flag and two decimal places after a rupee sign. -/
def formatPrice (p : ℚ) : String :=
  let n := roundHE (p * 100)
  let core := fun (k : Nat) => groupDigits (k / 100) ++ "." ++ pad2 (k % 100)
  "₹" ++ (if n < 0 then "-" ++ core n.natAbs else core n.toNat)

/-- Signed two-decimal percent display. Models the Python f-string with the
plus flag and two decimal places followed by a percent sign. -/
def formatPct (c : ℚ) : String :=
  let n := roundHE (c * 100)
  let core := fun (k : Nat) => Nat.repr (k / 100) ++ "." ++ pad2 (k % 100)
  (if n < 0 then "-" ++ core n.natAbs else "+" ++ core n.toNat) ++ "%"

/-- Outcome of one call into an external service: either the raw data it
returned, or an exception raised inside the call. -/
inductive AdapterOutcome (α : Type) where
  | ok (a : α)
  | exn

/-- One raw web search hit fed to the stock scraper: body, title and link as
returned by the text search, together with the numeric captures of the three
INR price patterns found in the body (the regular-expression scan of
_extract_price_from_text is modelled by this pre-parsed capture list; the
range filter applied to the captures is translated exactly). -/
structure SearchResult where
  body : String
  title : String
  href : String
  priceCandidates : List ℚ
  deriving Repr

/-- The mutable findings dictionary accumulated by
_scrape_stock_data_from_web. -/
structure StockInfo where
  prices_found : List ℚ
  trends_found : List String
  recommendations_found : List String
  sources_checked : List String
  deriving Repr, DecidableEq

/-- The stock dictionary produced by either source tier.  Keys that only the
live-API tier writes (change_24hr, volume) are optional, mirroring their
absence from the web-aggregated dictionary. -/
structure StockData where
  ticker : String
  company : String
  current_price : String
  change_24hr : Option String
  price_change_pct : String
  volume : Option String
  trend : String
  recommendation : String
  confidence : String
  source : String
  sources_analyzed : Nat
  data_type : String
  verified : Bool
  deriving Repr, DecidableEq

/-- Bullish keyword set of _extract_trend_from_text. -/
def bullish_words : List String :=
  ["rises", "gains", "jumps", "surges", "up", "rallies", "bullish", "positive", "growth"]

/-- Bearish keyword set of _extract_trend_from_text. -/
def bearish_words : List String :=
  ["falls", "drops", "declines", "down", "tumbles", "bearish", "negative", "loss"]

/-- Trend signal extraction (_extract_trend_from_text): the snippet and title
are concatenated and lowercased; a first loop appends one bullish vote when
any bullish keyword occurs, and a second, independent loop appends one
bearish vote when any bearish keyword occurs. -/
def extract_trend_from_text (snippet title : String) (trends_found : List String) :
    List String :=
  let text := lowerStr (snippet ++ " " ++ title)
  let t1 :=
    if bullish_words.any (fun w => containsSub w text) then trends_found ++ ["bullish"]
    else trends_found
  if bearish_words.any (fun w => containsSub w text) then t1 ++ ["bearish"] else t1

/-- BUY keyword set of _extract_recommendation_from_text. -/
def buy_words : List String := ["strong buy", "buy rating", "outperform", "accumulate"]

/-- SELL keyword set of _extract_recommendation_from_text. -/
def sell_words : List String := ["sell rating", "underperform", "avoid", "reduce"]

/-- HOLD keyword set of _extract_recommendation_from_text. -/
def hold_words : List String := ["hold", "neutral", "maintain"]

/-- Recommendation extraction (_extract_recommendation_from_text): the three
keyword sets are tried in BUY, SELL, HOLD order and at most one vote is
appended. -/
def extract_recommendation_from_text (snippet title : String)
    (recommendations_found : List String) : List String :=
  let text := lowerStr (snippet ++ " " ++ title)
  if buy_words.any (fun w => containsSub w text) then recommendations_found ++ ["BUY"]
  else if sell_words.any (fun w => containsSub w text) then recommendations_found ++ ["SELL"]
  else if hold_words.any (fun w => containsSub w text) then recommendations_found ++ ["HOLD"]
  else recommendations_found

/-- Price extraction (_extract_price_from_text): every numeric capture of the
INR patterns is parsed, and exactly the values strictly between 10 and 500000
are appended, in order. -/
def extract_price_from_text (candidates : List ℚ) (prices_found : List ℚ) : List ℚ :=
  candidates.foldl (fun acc p => if 10 < p ∧ p < 500000 then acc ++ [p] else acc) prices_found

/-- Average of the collected price candidates: the Python expression
sum(prices) / len(prices) if prices else None. -/
def averagePrice (prices : List ℚ) : Option ℚ :=
  if prices ≠ [] then some (prices.sum / (prices.length : ℚ)) else none

/-- Consensus reduction (_aggregate_stock_findings), translated branch by
branch. -/
def aggregate_stock_findings (info : StockInfo) (company_name ticker : String) : StockData :=
  let prices := info.prices_found
  let avg_price := averagePrice prices
  let trends := info.trends_found
  let trend :=
    if trends ≠ [] then
      let bullish_count := trends.count "bullish"
      let bearish_count := trends.count "bearish"
      if bullish_count > bearish_count then "bullish"
      else if bearish_count > bullish_count then "bearish"
      else "neutral"
    else "neutral"
  let recs := info.recommendations_found
  let rc : String × String :=
    if recs ≠ [] then
      let buy_count := recs.count "BUY"
      let sell_count := recs.count "SELL"
      let hold_count := recs.count "HOLD"
      if buy_count ≥ sell_count ∧ buy_count ≥ hold_count then
        ("BUY", if buy_count > 2 then "Strong" else "Moderate")
      else if sell_count > buy_count ∧ sell_count ≥ hold_count then
        ("SELL", if sell_count > 2 then "Strong" else "Moderate")
      else
        ("HOLD", "Moderate")
    else
      ("HOLD", "Low (limited data)")
  let sources_count := info.sources_checked.dedup.length
  let price_display :=
    match avg_price with
    | some p => if p ≠ 0 then formatPrice p else "Data unavailable"
    | none => "Data unavailable"
  { ticker := ticker
    company := company_name
    current_price := price_display
    change_24hr := none
    price_change_pct := (if trends ≠ [] then
      "~" ++ Nat.repr ((trends.count "bullish" - trends.count "bearish" : ℤ)).natAbs
        ++ "% (est.)" else "N/A")
    volume := none
    trend := trend
    recommendation := rc.1
    confidence := rc.2
    source := "Web search (" ++ Nat.repr sources_count ++ " sources)"
    sources_analyzed := max sources_count 1
    data_type := "web_aggregated"
    verified := false }

/-- Threshold recommendation from a percent change (_get_recommendation). -/
def get_recommendation (change_pct : ℚ) : String :=
  if change_pct > 2 then "STRONG BUY"
  else if change_pct > 0 then "BUY"
  else if change_pct > -2 then "HOLD"
  else "SELL"

/-- Shape of the percentChange field of the IndianAPI JSON body: absent, a
scalar, or a per-exchange mapping. -/
inductive PctField where
  | absent
  | scalar (q : ℚ)
  | byExchange (nse bse : Option ℚ)
  deriving Repr, DecidableEq

/-- Parsed JSON body of the IndianAPI stock endpoint, with the optional
fields the collector reads. -/
structure ApiResponse where
  hasError : Bool
  nse : Option ℚ
  bse : Option ℚ
  price : Option ℚ
  lastPrice : Option ℚ
  percentChange : PctField
  symbol : Option String
  companyName : Option String
  totalTradedVolume : Option String
  deriving Repr, DecidableEq

/-- An HTTP exchange with the IndianAPI endpoint: status code and parsed
body (none models an empty or unparsable body). -/
structure ApiHttp where
  status : Nat
  body : Option ApiResponse
  deriving Repr, DecidableEq

/-- Python numeric a or b: the left value unless it is falsy (zero). -/
def orTruthy (a b : ℚ) : ℚ := if a ≠ 0 then a else b

/-- Price resolution order of _fetch_indian_api: currentPrice.NSE, else
currentPrice.BSE, else the generic price, else lastPrice fields; a missing
field reads as 0 and 0 is falsy. -/
def resolve_price (r : ApiResponse) : ℚ :=
  let p := orTruthy (r.nse.getD 0) (r.bse.getD 0)
  if p ≠ 0 then p else orTruthy (r.price.getD 0) (r.lastPrice.getD 0)

/-- Percent-change resolution of _fetch_indian_api: a scalar is used as is, a
per-exchange mapping resolves NSE first then BSE, and a wholly absent field
defaults to 0. -/
def resolve_pct (r : ApiResponse) : ℚ :=
  match r.percentChange with
  | .absent => 0
  | .scalar q => q
  | .byExchange nse bse => orTruthy (nse.getD 0) (bse.getD 0)

/-- Authoritative source adapter (_fetch_indian_api): non-success status,
missing body, an error field, an unresolvable price, or an exception inside
the call all yield none; otherwise the live StockSignal dictionary is
built. -/
def fetch_indian_api (company_name : String) (o : AdapterOutcome ApiHttp) :
    Option StockData :=
  match o with
  | .exn => none
  | .ok h =>
    if h.status ≠ 200 then none
    else
      match h.body with
      | none => none
      | some r =>
        if r.hasError then none
        else
          let price := resolve_price r
          if price = 0 then none
          else
            let pct_change := resolve_pct r
            let trend :=
              if pct_change > 0 then "bullish"
              else if pct_change < 0 then "bearish"
              else "neutral"
            some
              { ticker := r.symbol.getD (upper6 company_name)
                company := r.companyName.getD company_name
                current_price := formatPrice price
                change_24hr := some (formatPct pct_change)
                price_change_pct := formatPct pct_change
                volume := some (r.totalTradedVolume.getD "N/A")
                trend := trend
                recommendation := get_recommendation pct_change
                confidence := if |pct_change| > 2 then "High" else "Moderate"
                source := "IndianAPI (Live NSE/BSE)"
                sources_analyzed := 1
                data_type := "live"
                verified := true }

/-- Per-result update of the findings dictionary inside the scraping loop of
_scrape_stock_data_from_web: the source link is recorded truncated to 50
characters, then the three extractors run on the lowercased body and the
title. -/
def process_result (info : StockInfo) (r : SearchResult) : StockInfo :=
  let snippet := lowerStr r.body
  let checked := info.sources_checked ++ [if r.href ≠ "" then strTake r.href 50 else ""]
  let i1 := { info with sources_checked := checked }
  let i2 := { i1 with prices_found := extract_price_from_text r.priceCandidates i1.prices_found }
  let i3 := { i2 with trends_found := extract_trend_from_text snippet r.title i2.trends_found }
  let newRecs := extract_recommendation_from_text snippet r.title i3.recommendations_found
  { i3 with recommendations_found := newRecs }

/-- Web scraping tier (_scrape_stock_data_from_web): the pooled search
results of the four queries are folded through the extractors and the
findings are aggregated.  An exception in the search loop truncates the
result list; the aggregation still runs on whatever was processed. -/
def scrape_stock_data_from_web (company_name ticker : String)
    (results : List SearchResult) : StockData :=
  let info0 : StockInfo :=
    { prices_found := [], trends_found := [], recommendations_found := [], sources_checked := [] }
  aggregate_stock_findings (results.foldl process_result info0) company_name ticker

/-- Source priority resolver (_get_stock_data_multi_source): with a
configured API key the authoritative fetch is attempted once, and its result
is returned only when it is present with a non-empty current_price that does
not contain the placeholder N/A; every other case falls through to the single
web-scraping tier. -/
def get_stock_data_multi_source (company_name api_key : String)
    (apiO : AdapterOutcome ApiHttp) (webResults : List SearchResult) : StockData :=
  let ticker := upper6 company_name
  if api_key ≠ "" ∧ api_key ≠ "your_indian_api_key_here" then
    match fetch_indian_api company_name apiO with
    | some indian_data =>
      if indian_data.current_price ≠ "" ∧ containsSub "N/A" indian_data.current_price = false then
        indian_data
      else scrape_stock_data_from_web company_name ticker webResults
    | none => scrape_stock_data_from_web company_name ticker webResults
  else scrape_stock_data_from_web company_name ticker webResults

/-- A Wikipedia page as seen through the client: existence flag, summary,
canonical URL, title. -/
structure WikiPage where
  pageExists : Bool
  summary : String
  fullurl : String
  title : String

/-- The dictionary _search_wikipedia returns for the first existing page. -/
structure WikiData where
  description : String
  url : String
  title : String
  deriving Repr, DecidableEq

/-- Encyclopedia adapter (_search_wikipedia): tries the company name and two
suffixed variants in order, stops at the first existing page and returns its
summary truncated to 800 characters.  No disambiguation check happens
here. -/
def search_wikipedia (wiki : String → WikiPage) (company_name : String) : Option WikiData :=
  let search_terms := [company_name, company_name ++ " company", company_name ++ " corporation"]
  match search_terms.find? (fun t => (wiki t).pageExists) with
  | some t =>
    let page := wiki t
    let summary :=
      if page.summary.data.length > 800 then strTake page.summary 800 else page.summary
    some { description := summary, url := page.fullurl, title := page.title }
  | none => none

/-- The try/except wrapper around the Wikipedia lookup: any exception inside
it becomes none. -/
def search_wikipedia_safe (o : AdapterOutcome (String → WikiPage)) (company_name : String) :
    Option WikiData :=
  match o with
  | .ok wiki => search_wikipedia wiki company_name
  | .exn => none

/-- One raw news search record. -/
structure NewsRaw where
  title : String
  body : String
  url : String
  date : String

/-- One collected news item (body truncated to 200 characters by
_search_news). -/
structure NewsItem where
  title : String
  summary : String
  url : String
  date : String
  deriving Repr, DecidableEq

/-- News adapter (_search_news) on a materialized result list. -/
def search_news (results : List NewsRaw) : List NewsItem :=
  results.map (fun r => { title := r.title, summary := strTake r.body 200, url := r.url, date := r.date })

/-- The try/except wrapper around the news search: an exception in the
search call leaves the news list empty. -/
def search_news_safe (o : AdapterOutcome (List NewsRaw)) : List NewsItem :=
  match o with
  | .ok rs => search_news rs
  | .exn => []

/-- Official website adapter (_search_official_website) with its bare except:
the first result link if any, none on an empty result or an exception. -/
def search_official_website_safe (o : AdapterOutcome (List String)) : Option String :=
  match o with
  | .ok (h :: _) => some h
  | .ok [] => none
  | .exn => none

/-- The company_info dictionary accreted by collect_data, with every key
optional. -/
structure CompanyInfo where
  description : Option String := none
  url : Option String := none
  title : Option String := none
  official_url : Option String := none
  deriving Repr, DecidableEq

/-- Python truthiness of the company_info dictionary: false exactly when no
key was ever written. -/
def CompanyInfo.isEmptyDict (ci : CompanyInfo) : Bool :=
  ci.description.isNone && ci.url.isNone && ci.title.isNone && ci.official_url.isNone

/-- The collected research bundle returned by collect_data. -/
structure CollectedData where
  company_name : String
  company_info : CompanyInfo
  news : List NewsItem
  stock_performance : Option StockData
  sources : List String
  data_quality : String
  error : Option String
  deriving Repr, DecidableEq

/-- Description points of _assess_data_quality: two when the description is
present and non-empty. -/
def description_points (d : CollectedData) : Nat :=
  if d.company_info.description.getD "" ≠ "" then 2 else 0

/-- News points of _assess_data_quality. -/
def news_points (d : CollectedData) : Nat :=
  if d.news.length > 0 then 2 else 0

/-- Price points of _assess_data_quality: the scorer tests only the
truthiness of the current_price string. -/
def price_points (d : CollectedData) : Nat :=
  match d.stock_performance with
  | some s => if s.current_price ≠ "" then 2 else 0
  | none => 0

/-- Citation points of _assess_data_quality. -/
def sources_points (d : CollectedData) : Nat :=
  if d.sources.length ≥ 3 then 1 else 0

/-- Integer quality score of _assess_data_quality. -/
def quality_score (d : CollectedData) : Nat :=
  description_points d + news_points d + price_points d + sources_points d

/-- Ordinal tier mapping of _assess_data_quality. -/
def assess_data_quality (d : CollectedData) : String :=
  if quality_score d ≥ 5 then "high"
  else if quality_score d ≥ 3 then "medium"
  else if quality_score d ≥ 1 then "low"
  else "insufficient"

/-- Overall collection sequence (collect_data): Wikipedia, news, official
website and the multi-source stock lookup accrete onto the profile, then the
quality tier is assessed.  The unexpected argument models an exception
escaping a step inside the try block of collect_data, caught by its outer
handler, which stamps the profile with the error tier; only the
data_quality and error fields of that degraded profile matter to the
claims, so the exception is modelled as occurring before any field was
filled. -/
def collect_data (company_name : String)
    (wikiO : AdapterOutcome (String → WikiPage))
    (newsO : AdapterOutcome (List NewsRaw))
    (webO : AdapterOutcome (List String))
    (api_key : String) (apiO : AdapterOutcome ApiHttp) (webResults : List SearchResult)
    (unexpected : Option String) : CollectedData :=
  let base : CollectedData :=
    { company_name := company_name, company_info := {}, news := [], stock_performance := none,
      sources := [], data_quality := "unknown", error := none }
  match unexpected with
  | some e => { base with data_quality := "error", error := some e }
  | none =>
    let d1 :=
      match search_wikipedia_safe wikiO company_name with
      | some w =>
        let ci : CompanyInfo :=
          { base.company_info with
              description := some w.description
              url := some w.url
              title := some w.title }
        { base with
            company_info := ci
            sources := base.sources ++ ["Wikipedia: " ++ w.url] }
      | none => base
    let news_data := search_news_safe newsO
    let newsSources :=
      (news_data.take 3).filterMap
        (fun a => if a.url ≠ "" then some ("News: " ++ a.url) else none)
    let d2 :=
      if news_data ≠ [] then
        { d1 with news := news_data, sources := d1.sources ++ newsSources }
      else d1
    let d3 :=
      match search_official_website_safe webO with
      | some u => { d2 with company_info := { d2.company_info with official_url := some u } }
      | none => d2
    let stock_data := get_stock_data_multi_source company_name api_key apiO webResults
    let d4 :=
      { d3 with
          stock_performance := some stock_data
          sources := d3.sources ++ ["Stock: " ++ stock_data.source] }
    { d4 with data_quality := assess_data_quality d4 }

/-- Description as the analyst summary step uses it (_generate_summary):
truncated to 400 characters and blanked when it carries a disambiguation
marker. -/
def summary_description (company_info : CompanyInfo) : String :=
  let description := strTake (company_info.description.getD "") 400
  if containsSub "can refer to" (lowerStr description) ||
      containsSub "may refer to" (lowerStr description) then ""
  else description

/-- Analysis output record. -/
structure AnalysisResults where
  executive_summary : String
  market_insights : String
  risks_opportunities : String
  data_sources : String
  data_quality : String
  deriving Repr, DecidableEq

/-- Workflow state shared across the orchestrator nodes. -/
structure AgentState where
  company_name : String
  raw_data : Option CollectedData
  analysis_results : Option AnalysisResults
  error : Option String
  validation_passed : Bool

/-- Validation node (_validate_data_node): passes when the quality tier is
not error and at least one of company info, news or sources is non-empty;
on failure it synthesizes the fixed insufficient-data analysis. -/
def validate_data_node (s : AgentState) : AgentState :=
  let data_quality := match s.raw_data with | some d => d.data_quality | none => "unknown"
  let has_company_info :=
    match s.raw_data with | some d => !d.company_info.isEmptyDict | none => false
  let has_news := match s.raw_data with | some d => decide (d.news ≠ []) | none => false
  let has_sources := match s.raw_data with | some d => decide (d.sources ≠ []) | none => false
  let validation_passed :=
    decide (data_quality ≠ "error") && (has_company_info || has_news || has_sources)
  let minimal : AnalysisResults :=
    { executive_summary := "⚠️ **Insufficient Data**\n\nNo reliable information found for "
        ++ s.company_name ++ "."
      market_insights := "**Data Not Available**"
      risks_opportunities := "**Data Not Available**"
      data_sources := "- No sources found"
      data_quality := data_quality }
  if validation_passed then { s with validation_passed := true }
  else { s with validation_passed := false, analysis_results := some minimal }

/-- Conditional edge of the graph (_should_analyze). -/
def should_analyze (s : AgentState) : Bool := s.validation_passed

/-- Collection node (_collect_data_node). -/
def collect_data_node (s : AgentState)
    (wikiO : AdapterOutcome (String → WikiPage)) (newsO : AdapterOutcome (List NewsRaw))
    (webO : AdapterOutcome (List String)) (api_key : String) (apiO : AdapterOutcome ApiHttp)
    (webResults : List SearchResult) (unexpected : Option String) : AgentState :=
  let collected := collect_data s.company_name wikiO newsO webO api_key apiO webResults unexpected
  { s with raw_data := some collected }

/-- Analysis node (_analyze_data_node); the analyst itself is an external
collaborator passed as a function. -/
def analyze_data_node (analyst : CollectedData → AnalysisResults) (s : AgentState) : AgentState :=
  let failure : AnalysisResults :=
    { executive_summary := "Analysis unavailable due to error"
      market_insights := "Analysis unavailable"
      risks_opportunities := "Analysis unavailable"
      data_sources := "- Error occurred"
      data_quality := "error" }
  match s.raw_data with
  | some d => { s with analysis_results := some (analyst d) }
  | none =>
    { s with
        error := some "Analysis error: No data available for analysis"
        analysis_results := some failure }

/-- The compiled workflow (Orchestrator.run): collect, validate, then
analyze only when validation passed. -/
def run_workflow (company_name : String)
    (wikiO : AdapterOutcome (String → WikiPage)) (newsO : AdapterOutcome (List NewsRaw))
    (webO : AdapterOutcome (List String)) (api_key : String) (apiO : AdapterOutcome ApiHttp)
    (webResults : List SearchResult) (unexpected : Option String)
    (analyst : CollectedData → AnalysisResults) : AgentState :=
  let s0 : AgentState :=
    { company_name := company_name, raw_data := none, analysis_results := none,
      error := none, validation_passed := false }
  let s1 := collect_data_node s0 wikiO newsO webO api_key apiO webResults unexpected
  let s2 := validate_data_node s1
  if should_analyze s2 then analyze_data_node analyst s2 else s2

/-- A Wikipedia lookup whose every page exists and carries a disambiguation
summary; concrete input for the claim C8 analysis. -/
def wikiAcme : String → WikiPage := fun _ =>
  { pageExists := true
    summary := "Acme may refer to:"
    fullurl := "https://en.wikipedia.org/wiki/Acme"
    title := "Acme" }

/-- A concrete successful IndianAPI body: NSE price 100, percent change 1. -/
def apiRespC : ApiResponse :=
  { hasError := false
    nse := some 100
    bse := none
    price := none
    lastPrice := none
    percentChange := PctField.scalar 1
    symbol := some "TCS"
    companyName := some "TCS Ltd"
    totalTradedVolume := none }

/-- The live signal fetch_indian_api builds from apiRespC. -/
def stockC : StockData :=
  { ticker := "TCS"
    company := "TCS Ltd"
    current_price := formatPrice 100
    change_24hr := some (formatPct 1)
    price_change_pct := formatPct 1
    volume := some "N/A"
    trend := "bullish"
    recommendation := "BUY"
    confidence := "Moderate"
    source := "IndianAPI (Live NSE/BSE)"
    sources_analyzed := 1
    data_type := "live"
    verified := true }

/-- A concrete successful IndianAPI body matching the end-to-end scenario of
the specification: NSE price 1234.5, percent change 3.1. -/
def apiRespAcme : ApiResponse :=
  { hasError := false
    nse := some 1234.5
    bse := none
    price := none
    lastPrice := none
    percentChange := PctField.scalar 3.1
    symbol := some "ACME"
    companyName := some "Acme"
    totalTradedVolume := none }

/-- A collected profile whose stock lookup found zero price candidates;
concrete input for the claim C10 analysis. -/
def emptyFindings : StockInfo :=
  { prices_found := [], trends_found := [], recommendations_found := [], sources_checked := [] }

/-- Profile carrying the zero-candidate web-aggregated signal. -/
def profileNoPrice : CollectedData :=
  { company_name := "None Co"
    company_info := {}
    news := []
    stock_performance := some (aggregate_stock_findings emptyFindings "None Co" "NONE C")
    sources := []
    data_quality := "low"
    error := none }

/-! Helper lemmas. -/

lemma roundHE_intCast (n : ℤ) : roundHE (n : ℚ) = n := by
  simp [roundHE]

lemma roundHE_of_eq (q : ℚ) (n : ℤ) (h : q = (n : ℚ)) : roundHE q = n := by
  rw [h, roundHE_intCast]

lemma formatPrice_concrete (p : ℚ) (n : ℤ) (h : p * 100 = (n : ℚ)) :
    formatPrice p = "₹" ++ (if n < 0 then
        "-" ++ (groupDigits (n.natAbs / 100) ++ "." ++ pad2 (n.natAbs % 100))
      else groupDigits (n.toNat / 100) ++ "." ++ pad2 (n.toNat % 100)) := by
  simp only [formatPrice, roundHE_of_eq (p * 100) n h]

lemma rupee_append_ne_empty (s : String) : ("₹" ++ s) ≠ "" := by
  intro h
  have h2 := congrArg String.data h
  rw [String.data_append] at h2
  exact absurd (List.append_eq_nil.mp h2).1 (by decide)

lemma formatPrice_ne_empty (p : ℚ) : formatPrice p ≠ "" := by
  simp only [formatPrice]
  apply rupee_append_ne_empty

lemma aggregate_trend_def (info : StockInfo) (company_name ticker : String) :
    (aggregate_stock_findings info company_name ticker).trend =
      (if info.trends_found ≠ [] then
        (if info.trends_found.count "bullish" > info.trends_found.count "bearish" then "bullish"
         else if info.trends_found.count "bearish" > info.trends_found.count "bullish" then
           "bearish"
         else "neutral")
       else "neutral") := by
  simp only [aggregate_stock_findings]

lemma aggregate_recommendation_def (info : StockInfo) (company_name ticker : String) :
    (aggregate_stock_findings info company_name ticker).recommendation =
      (if info.recommendations_found ≠ [] then
        (if info.recommendations_found.count "BUY" ≥ info.recommendations_found.count "SELL" ∧
            info.recommendations_found.count "BUY" ≥ info.recommendations_found.count "HOLD" then
           "BUY"
         else if info.recommendations_found.count "SELL" > info.recommendations_found.count "BUY" ∧
            info.recommendations_found.count "SELL" ≥ info.recommendations_found.count "HOLD" then
           "SELL"
         else "HOLD")
       else "HOLD") := by
  simp only [aggregate_stock_findings]
  split_ifs <;> rfl

lemma aggregate_confidence_def (info : StockInfo) (company_name ticker : String) :
    (aggregate_stock_findings info company_name ticker).confidence =
      (if info.recommendations_found ≠ [] then
        (if info.recommendations_found.count "BUY" ≥ info.recommendations_found.count "SELL" ∧
            info.recommendations_found.count "BUY" ≥ info.recommendations_found.count "HOLD" then
           (if info.recommendations_found.count "BUY" > 2 then "Strong" else "Moderate")
         else if info.recommendations_found.count "SELL" > info.recommendations_found.count "BUY" ∧
            info.recommendations_found.count "SELL" ≥ info.recommendations_found.count "HOLD" then
           (if info.recommendations_found.count "SELL" > 2 then "Strong" else "Moderate")
         else "Moderate")
       else "Low (limited data)") := by
  simp only [aggregate_stock_findings]
  split_ifs <;> rfl

lemma aggregate_current_price_def (info : StockInfo) (company_name ticker : String) :
    (aggregate_stock_findings info company_name ticker).current_price =
      (match averagePrice info.prices_found with
       | some p => if p ≠ 0 then formatPrice p else "Data unavailable"
       | none => "Data unavailable") := by
  simp only [aggregate_stock_findings]

lemma mean_pos (prices : List ℚ) (hne : prices ≠ [])
    (hin : ∀ p ∈ prices, 10 < p ∧ p < 500000) :
    0 < prices.sum / (prices.length : ℚ) := by
  apply div_pos
  · apply List.sum_pos
    · intro a ha
      linarith [(hin a ha).1]
    · exact hne
  · exact_mod_cast List.length_pos.mpr hne

lemma aggregate_price_display (info : StockInfo) (company_name ticker : String)
    (hin : ∀ p ∈ info.prices_found, 10 < p ∧ p < 500000) :
    (aggregate_stock_findings info company_name ticker).current_price ≠ "" ∧
    (info.prices_found = [] →
      (aggregate_stock_findings info company_name ticker).current_price = "Data unavailable") ∧
    (info.prices_found ≠ [] →
      (aggregate_stock_findings info company_name ticker).current_price =
        formatPrice (info.prices_found.sum / (info.prices_found.length : ℚ))) := by
  rw [aggregate_current_price_def]
  by_cases hne : info.prices_found = []
  · have havg : averagePrice info.prices_found = none := by
      rw [averagePrice, if_neg (by simp [hne])]
    simp only [havg]
    exact ⟨by decide, fun _ => by trivial, fun h => absurd hne h⟩
  · have havg : averagePrice info.prices_found =
        some (info.prices_found.sum / (info.prices_found.length : ℚ)) := by
      rw [averagePrice, if_pos hne]
    simp only [havg]
    have hpos := mean_pos info.prices_found hne hin
    rw [if_pos (ne_of_gt hpos)]
    exact ⟨formatPrice_ne_empty _, fun h => absurd h hne, fun _ => rfl⟩

/-! Claim analysis. -/

/-- Claim C1, counterexample: on the snippet "up" with title "down" — one
bullish and one bearish keyword — the trend extractor records BOTH a bullish
and a bearish vote, so the extracted signal is not bullish alone as the
claim states. -/
theorem claim1_counterexample :
    extract_trend_from_text "up" "down" [] = ["bullish", "bearish"] ∧
    extract_trend_from_text "up" "down" [] ≠ ["bullish"] ∧
    "bearish" ∈ extract_trend_from_text "up" "down" [] := by
  decide

/-- Claim C1 as amended: for every input text containing at least one
bullish keyword and at least one bearish keyword, the trend extractor
records exactly one bullish vote followed by one bearish vote (the bullish
loop runs first, but it does not suppress the bearish loop); neither
polarity wins at the snippet level. -/
theorem claim1_amended (snippet title : String) (trends_found : List String)
    (hb : bullish_words.any
      (fun w => containsSub w (lowerStr (snippet ++ " " ++ title))) = true)
    (he : bearish_words.any
      (fun w => containsSub w (lowerStr (snippet ++ " " ++ title))) = true) :
    extract_trend_from_text snippet title trends_found = trends_found ++ ["bullish", "bearish"] := by
  simp [extract_trend_from_text, hb, he]

/-- Witness for the amended claim C1 at the concrete snippet "up", title
"down". -/
theorem claim1_amended_witness :
    extract_trend_from_text "up" "down" ["seed"] = ["seed"] ++ ["bullish", "bearish"] :=
  claim1_amended "up" "down" ["seed"] (by decide) (by decide)

/-- Claim C3, confirmed: the aggregated trend is bullish when bullish votes
strictly outnumber bearish votes, bearish in the symmetric case, and
neutral on every tie, including the 0-0 tie arising from an empty vote
list. -/
theorem claim3_trend_consensus (info : StockInfo) (company_name ticker : String) :
    (info.trends_found.count "bullish" > info.trends_found.count "bearish" →
      (aggregate_stock_findings info company_name ticker).trend = "bullish") ∧
    (info.trends_found.count "bearish" > info.trends_found.count "bullish" →
      (aggregate_stock_findings info company_name ticker).trend = "bearish") ∧
    (info.trends_found.count "bullish" = info.trends_found.count "bearish" →
      (aggregate_stock_findings info company_name ticker).trend = "neutral") := by
  rw [aggregate_trend_def]
  by_cases hne : info.trends_found = []
  · refine ⟨?_, ?_, ?_⟩ <;> intro h
    · rw [hne] at h
      simp at h
    · rw [hne] at h
      simp at h
    · simp [hne]
  · refine ⟨?_, ?_, ?_⟩ <;> intro h
    · rw [if_pos hne, if_pos h]
    · rw [if_pos hne, if_neg (by omega), if_pos h]
    · rw [if_pos hne, if_neg (by omega), if_neg (by omega)]

/-- Witness for claim C3 at a concrete one-one tie. -/
theorem claim3_witness :
    (aggregate_stock_findings ⟨[], ["bullish", "bearish"], [], []⟩ "Tie Co" "TIE").trend
      = "neutral" :=
  (claim3_trend_consensus ⟨[], ["bullish", "bearish"], [], []⟩ "Tie Co" "TIE").2.2 (by decide)

/-- Claim C2, confirmed: over a non-empty recommendation vote list the
aggregated recommendation is BUY when buy votes are at least the sell votes
and at least the hold votes, else SELL when sell votes strictly exceed buy
votes and are at least the hold votes, else HOLD; an all-equal positive tie
yields BUY and an empty vote list yields HOLD. -/
theorem claim2_recommendation_consensus (info : StockInfo) (company_name ticker : String) :
    (info.recommendations_found ≠ [] →
      (aggregate_stock_findings info company_name ticker).recommendation =
        (if info.recommendations_found.count "BUY" ≥ info.recommendations_found.count "SELL" ∧
            info.recommendations_found.count "BUY" ≥ info.recommendations_found.count "HOLD" then
           "BUY"
         else if info.recommendations_found.count "SELL" >
              info.recommendations_found.count "BUY" ∧
            info.recommendations_found.count "SELL" ≥
              info.recommendations_found.count "HOLD" then
           "SELL"
         else "HOLD")) ∧
    (0 < info.recommendations_found.count "BUY" →
      info.recommendations_found.count "BUY" = info.recommendations_found.count "SELL" →
      info.recommendations_found.count "SELL" = info.recommendations_found.count "HOLD" →
      (aggregate_stock_findings info company_name ticker).recommendation = "BUY") ∧
    (info.recommendations_found = [] →
      (aggregate_stock_findings info company_name ticker).recommendation = "HOLD") := by
  rw [aggregate_recommendation_def]
  refine ⟨fun hne => by rw [if_pos hne], ?_, fun he => by rw [if_neg (by simp [he])]⟩
  intro hpos h1 h2
  have hne : info.recommendations_found ≠ [] := by
    intro h0
    rw [h0] at hpos
    simp at hpos
  rw [if_pos hne, if_pos (by omega)]

/-- Witness for claim C2 at the all-equal positive tie: one BUY, one SELL
and one HOLD vote aggregate to BUY. -/
theorem claim2_witness :
    (aggregate_stock_findings ⟨[], [], ["BUY", "SELL", "HOLD"], []⟩ "Tie Co" "TIE").recommendation
      = "BUY" :=
  (claim2_recommendation_consensus ⟨[], [], ["BUY", "SELL", "HOLD"], []⟩ "Tie Co" "TIE").2.1
    (by decide) (by decide) (by decide)

/-- Claim C5, counterexample: three HOLD votes and nothing else make HOLD
the winning recommendation with a winning count greater than 2, yet the
aggregated confidence is Moderate, not Strong as the claim requires for any
winner. -/
theorem claim5_counterexample :
    (["HOLD", "HOLD", "HOLD"] : List String).count "HOLD" > 2 ∧
    (aggregate_stock_findings ⟨[], [], ["HOLD", "HOLD", "HOLD"], []⟩ "Hold Co"
        "HOLD C").recommendation = "HOLD" ∧
    (aggregate_stock_findings ⟨[], [], ["HOLD", "HOLD", "HOLD"], []⟩ "Hold Co"
        "HOLD C").confidence = "Moderate" ∧
    ("Moderate" : String) ≠ "Strong" := by
  refine ⟨by decide, ?_, ?_, by decide⟩
  · rw [aggregate_recommendation_def]
    decide
  · rw [aggregate_confidence_def]
    decide

/-- Claim C5 as amended: the Strong-when-winning-count-exceeds-two rule
applies only to BUY and SELL winners; a HOLD winner always receives
Moderate confidence, and with no recommendation votes at all the result is
HOLD with confidence Low (limited data). -/
theorem claim5_confidence_amended (info : StockInfo) (company_name ticker : String) :
    (info.recommendations_found ≠ [] →
      ((info.recommendations_found.count "BUY" ≥ info.recommendations_found.count "SELL" ∧
          info.recommendations_found.count "BUY" ≥ info.recommendations_found.count "HOLD") →
        (aggregate_stock_findings info company_name ticker).recommendation = "BUY" ∧
        (aggregate_stock_findings info company_name ticker).confidence =
          (if info.recommendations_found.count "BUY" > 2 then "Strong" else "Moderate")) ∧
      (¬(info.recommendations_found.count "BUY" ≥ info.recommendations_found.count "SELL" ∧
          info.recommendations_found.count "BUY" ≥ info.recommendations_found.count "HOLD") →
        (info.recommendations_found.count "SELL" > info.recommendations_found.count "BUY" ∧
          info.recommendations_found.count "SELL" ≥ info.recommendations_found.count "HOLD") →
        (aggregate_stock_findings info company_name ticker).recommendation = "SELL" ∧
        (aggregate_stock_findings info company_name ticker).confidence =
          (if info.recommendations_found.count "SELL" > 2 then "Strong" else "Moderate")) ∧
      (¬(info.recommendations_found.count "BUY" ≥ info.recommendations_found.count "SELL" ∧
          info.recommendations_found.count "BUY" ≥ info.recommendations_found.count "HOLD") →
        ¬(info.recommendations_found.count "SELL" > info.recommendations_found.count "BUY" ∧
          info.recommendations_found.count "SELL" ≥ info.recommendations_found.count "HOLD") →
        (aggregate_stock_findings info company_name ticker).recommendation = "HOLD" ∧
        (aggregate_stock_findings info company_name ticker).confidence = "Moderate")) ∧
    (info.recommendations_found = [] →
      (aggregate_stock_findings info company_name ticker).recommendation = "HOLD" ∧
      (aggregate_stock_findings info company_name ticker).confidence = "Low (limited data)") := by
  rw [aggregate_recommendation_def, aggregate_confidence_def]
  constructor
  · intro hne
    refine ⟨fun hb => ?_, fun hb hs => ?_, fun hb hs => ?_⟩
    · rw [if_pos hne, if_pos hne, if_pos hb, if_pos hb]
      exact ⟨rfl, rfl⟩
    · rw [if_pos hne, if_pos hne, if_neg hb, if_neg hb, if_pos hs, if_pos hs]
      exact ⟨rfl, rfl⟩
    · rw [if_pos hne, if_pos hne, if_neg hb, if_neg hb, if_neg hs, if_neg hs]
      exact ⟨rfl, rfl⟩
  · intro he
    rw [if_neg (by simp [he]), if_neg (by simp [he])]
    exact ⟨rfl, rfl⟩

/-- Witness for the amended claim C5: three HOLD votes yield HOLD with
Moderate confidence. -/
theorem claim5_amended_witness :
    (aggregate_stock_findings ⟨[], [], ["HOLD", "HOLD", "HOLD"], []⟩ "Hold Co"
        "HOLD C").recommendation = "HOLD" ∧
    (aggregate_stock_findings ⟨[], [], ["HOLD", "HOLD", "HOLD"], []⟩ "Hold Co"
        "HOLD C").confidence = "Moderate" :=
  ((claim5_confidence_amended ⟨[], [], ["HOLD", "HOLD", "HOLD"], []⟩ "Hold Co" "HOLD C").1
      (by decide)).2.2 (by decide) (by decide)

/-- Claim C4, confirmed: with a non-empty list of in-range price candidates
the aggregated price is their arithmetic mean, duplicates contributing
equally, and the displayed price is that mean formatted; with no candidates
the aggregated price is absent and the display is the unavailable
placeholder. -/
theorem claim4_price_mean (info : StockInfo) (company_name ticker : String)
    (hin : ∀ p ∈ info.prices_found, 10 < p ∧ p < 500000) :
    (info.prices_found ≠ [] →
      averagePrice info.prices_found =
        some (info.prices_found.sum / (info.prices_found.length : ℚ)) ∧
      (aggregate_stock_findings info company_name ticker).current_price =
        formatPrice (info.prices_found.sum / (info.prices_found.length : ℚ))) ∧
    (info.prices_found = [] →
      averagePrice info.prices_found = none ∧
      (aggregate_stock_findings info company_name ticker).current_price = "Data unavailable") := by
  rw [aggregate_current_price_def]
  constructor
  · intro hne
    have havg : averagePrice info.prices_found =
        some (info.prices_found.sum / (info.prices_found.length : ℚ)) := by
      rw [averagePrice, if_pos hne]
    refine ⟨havg, ?_⟩
    rw [havg]
    exact if_pos (ne_of_gt (mean_pos info.prices_found hne hin))
  · intro he
    have havg : averagePrice info.prices_found = none := by
      rw [averagePrice, if_neg (by simp [he])]
    exact ⟨havg, by rw [havg]⟩

/-- Witness for claim C4 at the concrete candidate list 100, 200: the
aggregated price is the mean 150 and is displayed as a formatted price. -/
theorem claim4_witness :
    (averagePrice [(100 : ℚ), 200] =
      some ([(100 : ℚ), 200].sum / (([(100 : ℚ), 200].length : Nat) : ℚ)) ∧
     (aggregate_stock_findings ⟨[(100 : ℚ), 200], [], [], []⟩ "Mean Co" "MEAN C").current_price =
      formatPrice ([(100 : ℚ), 200].sum / (([(100 : ℚ), 200].length : Nat) : ℚ))) ∧
    formatPrice ([(100 : ℚ), 200].sum / (([(100 : ℚ), 200].length : Nat) : ℚ)) = "₹150.00" := by
  constructor
  · exact (claim4_price_mean ⟨[(100 : ℚ), 200], [], [], []⟩ "Mean Co" "MEAN C"
      (by decide)).1 (by decide)
  · rw [formatPrice_concrete _ 15000 (by norm_num)]
    decide

/-- Claim C10, confirmed: every web-aggregated signal has a non-empty
current_price string — the formatted mean when in-range candidates existed,
the literal placeholder when none did — and since the quality scorer tests
only the truthiness of that string, a profile whose stock lookup found zero
price candidates still earns the two price points. -/
theorem claim10_placeholder_truthy (info : StockInfo) (company_name ticker : String)
    (hin : ∀ p ∈ info.prices_found, 10 < p ∧ p < 500000) :
    (aggregate_stock_findings info company_name ticker).current_price ≠ "" ∧
    (info.prices_found = [] →
      (aggregate_stock_findings info company_name ticker).current_price = "Data unavailable") ∧
    (info.prices_found ≠ [] →
      (aggregate_stock_findings info company_name ticker).current_price =
        formatPrice (info.prices_found.sum / (info.prices_found.length : ℚ))) ∧
    (∀ d : CollectedData,
      d.stock_performance = some (aggregate_stock_findings info company_name ticker) →
      price_points d = 2) := by
  have hmean := aggregate_price_display info company_name ticker hin
  refine ⟨hmean.1, hmean.2.1, hmean.2.2, ?_⟩
  intro d hd
  simp only [price_points, hd]
  rw [if_pos hmean.1]

/-- Witness for claim C10: the zero-candidate aggregate displays the
placeholder and the profile carrying it still earns the two price
points. -/
theorem claim10_witness :
    (aggregate_stock_findings emptyFindings "None Co" "NONE C").current_price
      = "Data unavailable" ∧
    price_points profileNoPrice = 2 := by
  have h := claim10_placeholder_truthy emptyFindings "None Co" "NONE C" (by simp [emptyFindings])
  exact ⟨h.2.1 rfl, h.2.2.2 profileNoPrice rfl⟩

lemma fetch_indian_api_live (company_name : String) (o : AdapterOutcome ApiHttp)
    (d : StockData) (h : fetch_indian_api company_name o = some d) :
    d.verified = true ∧ d.data_type = "live" := by
  cases o with
  | exn => simp [fetch_indian_api] at h
  | ok hh =>
    cases hb : hh.body with
    | none => simp [fetch_indian_api, hb] at h
    | some r =>
      by_cases h200 : hh.status ≠ 200
      · simp [fetch_indian_api, h200] at h
      · by_cases herr : r.hasError
        · simp [fetch_indian_api, hb, h200, herr] at h
        · by_cases hp : resolve_price r = 0
          · simp [fetch_indian_api, hb, h200, herr, hp] at h
          · simp only [fetch_indian_api, hb, h200, herr, hp, if_neg, if_false,
              Bool.false_eq_true, Option.some.injEq, ite_false] at h
            rw [← h]
            exact ⟨rfl, rfl⟩

lemma fetch_apiRespC :
    fetch_indian_api "TCS" (AdapterOutcome.ok ⟨200, some apiRespC⟩) = some stockC := by
  have h1 : resolve_price apiRespC = 100 := by
    norm_num [resolve_price, apiRespC, orTruthy]
  have h2 : resolve_pct apiRespC = 1 := by
    norm_num [resolve_pct, apiRespC]
  have hErr : apiRespC.hasError = false := rfl
  have hSym : apiRespC.symbol = some "TCS" := rfl
  have hComp : apiRespC.companyName = some "TCS Ltd" := rfl
  have hVol : apiRespC.totalTradedVolume = none := rfl
  norm_num [fetch_indian_api, get_recommendation, hErr, h1, h2, hSym, hComp, hVol, stockC]

/-- Claim C6, confirmed: with a configured API key, an authoritative result
whose price display is non-empty and free of the N/A placeholder
short-circuits the resolver — the web-scraping aggregation is not consulted
and the returned signal is the authoritative one, verified and with live
provenance; an absent or placeholder-priced result falls through to the
single web-aggregation tier instead. -/
theorem claim6_priority_short_circuit (company_name api_key : String)
    (apiO : AdapterOutcome ApiHttp) (webResults : List SearchResult)
    (hk1 : api_key ≠ "") (hk2 : api_key ≠ "your_indian_api_key_here") :
    (∀ d : StockData, fetch_indian_api company_name apiO = some d →
      d.current_price ≠ "" → containsSub "N/A" d.current_price = false →
      get_stock_data_multi_source company_name api_key apiO webResults = d ∧
        d.verified = true ∧ d.data_type = "live") ∧
    (fetch_indian_api company_name apiO = none →
      get_stock_data_multi_source company_name api_key apiO webResults =
        scrape_stock_data_from_web company_name (upper6 company_name) webResults) ∧
    (∀ d : StockData, fetch_indian_api company_name apiO = some d →
      ¬(d.current_price ≠ "" ∧ containsSub "N/A" d.current_price = false) →
      get_stock_data_multi_source company_name api_key apiO webResults =
        scrape_stock_data_from_web company_name (upper6 company_name) webResults) := by
  refine ⟨?_, ?_, ?_⟩
  · intro d hd h1 h2
    have hlive := fetch_indian_api_live company_name apiO d hd
    refine ⟨?_, hlive.1, hlive.2⟩
    simp only [get_stock_data_multi_source, hd]
    rw [if_pos ⟨hk1, hk2⟩, if_pos ⟨h1, h2⟩]
  · intro hd
    simp only [get_stock_data_multi_source, hd]
    rw [if_pos ⟨hk1, hk2⟩]
  · intro d hd hcond
    simp only [get_stock_data_multi_source, hd]
    rw [if_pos ⟨hk1, hk2⟩, if_neg hcond]

/-- Witness for claim C6: a live result with price 100 is returned as is,
verified, without consulting the aggregation tier. -/
theorem claim6_witness :
    get_stock_data_multi_source "TCS" "key" (AdapterOutcome.ok ⟨200, some apiRespC⟩) [] = stockC ∧
    stockC.verified = true ∧ stockC.data_type = "live" := by
  have hfp : formatPrice (100 : ℚ) = "₹100.00" := by
    rw [formatPrice_concrete _ 10000 (by norm_num)]
    decide
  have hcp : stockC.current_price = formatPrice (100 : ℚ) := rfl
  exact (claim6_priority_short_circuit "TCS" "key" (AdapterOutcome.ok ⟨200, some apiRespC⟩) []
    (by decide) (by decide)).1 stockC fetch_apiRespC
    (by rw [hcp, hfp]; decide) (by rw [hcp, hfp]; decide)

/-- Claim C7, confirmed: a successful authoritative response with resolved
price p and percent change c yields a signal whose trend follows the sign of
c, whose recommendation follows the fixed thresholds (STRONG BUY above 2,
BUY above 0, HOLD above -2, SELL at or below -2), whose confidence is High
exactly when the magnitude of c exceeds 2 and Moderate otherwise, which is
verified, and whose displayed price is p formatted with the currency symbol,
thousands separators and two decimals. -/
theorem claim7_authoritative_signal (r : ApiResponse) (company_name : String)
    (herr : r.hasError = false) (hp : resolve_price r ≠ 0) :
    ∃ s : StockData,
      fetch_indian_api company_name (AdapterOutcome.ok ⟨200, some r⟩) = some s ∧
      s.verified = true ∧
      s.current_price = formatPrice (resolve_price r) ∧
      (resolve_pct r > 0 → s.trend = "bullish") ∧
      (resolve_pct r < 0 → s.trend = "bearish") ∧
      (resolve_pct r = 0 → s.trend = "neutral") ∧
      (resolve_pct r > 2 → s.recommendation = "STRONG BUY") ∧
      (0 < resolve_pct r → resolve_pct r ≤ 2 → s.recommendation = "BUY") ∧
      (-2 < resolve_pct r → resolve_pct r ≤ 0 → s.recommendation = "HOLD") ∧
      (resolve_pct r ≤ -2 → s.recommendation = "SELL") ∧
      (|resolve_pct r| > 2 → s.confidence = "High") ∧
      (¬(|resolve_pct r| > 2) → s.confidence = "Moderate") := by
  have hf : fetch_indian_api company_name (AdapterOutcome.ok ⟨200, some r⟩) = some
      { ticker := r.symbol.getD (upper6 company_name)
        company := r.companyName.getD company_name
        current_price := formatPrice (resolve_price r)
        change_24hr := some (formatPct (resolve_pct r))
        price_change_pct := formatPct (resolve_pct r)
        volume := some (r.totalTradedVolume.getD "N/A")
        trend := if resolve_pct r > 0 then "bullish"
          else if resolve_pct r < 0 then "bearish" else "neutral"
        recommendation := get_recommendation (resolve_pct r)
        confidence := if |resolve_pct r| > 2 then "High" else "Moderate"
        source := "IndianAPI (Live NSE/BSE)"
        sources_analyzed := 1
        data_type := "live"
        verified := true } := by
    simp [fetch_indian_api, herr, hp]
  refine ⟨_, hf, rfl, rfl, fun h => ?_, fun h => ?_, fun h => ?_, fun h => ?_,
    fun h h2 => ?_, fun h h2 => ?_, fun h => ?_, fun h => ?_, fun h => ?_⟩
  · show (if resolve_pct r > 0 then "bullish"
      else if resolve_pct r < 0 then "bearish" else "neutral") = "bullish"
    rw [if_pos h]
  · show (if resolve_pct r > 0 then "bullish"
      else if resolve_pct r < 0 then "bearish" else "neutral") = "bearish"
    rw [if_neg (by linarith), if_pos h]
  · show (if resolve_pct r > 0 then "bullish"
      else if resolve_pct r < 0 then "bearish" else "neutral") = "neutral"
    rw [if_neg (by rw [h]; norm_num), if_neg (by rw [h]; norm_num)]
  · show get_recommendation (resolve_pct r) = "STRONG BUY"
    simp only [get_recommendation]
    rw [if_pos h]
  · show get_recommendation (resolve_pct r) = "BUY"
    simp only [get_recommendation]
    rw [if_neg (by linarith), if_pos h]
  · show get_recommendation (resolve_pct r) = "HOLD"
    simp only [get_recommendation]
    rw [if_neg (by linarith), if_neg (by linarith), if_pos h]
  · show get_recommendation (resolve_pct r) = "SELL"
    simp only [get_recommendation]
    rw [if_neg (by linarith), if_neg (by linarith), if_neg (by linarith)]
  · show (if |resolve_pct r| > 2 then "High" else "Moderate") = "High"
    rw [if_pos h]
  · show (if |resolve_pct r| > 2 then "High" else "Moderate") = "Moderate"
    rw [if_neg h]

/-- Witness for claim C7, the end-to-end scenario of the specification: NSE
price 1234.5 and percent change 3.1 yield the display ₹1,234.50, a bullish
trend, a STRONG BUY recommendation, High confidence, and a verified
signal. -/
theorem claim7_witness :
    ∃ s : StockData,
      fetch_indian_api "Acme" (AdapterOutcome.ok ⟨200, some apiRespAcme⟩) = some s ∧
      s.current_price = "₹1,234.50" ∧ s.trend = "bullish" ∧
      s.recommendation = "STRONG BUY" ∧ s.confidence = "High" ∧ s.verified = true := by
  have hpct : resolve_pct apiRespAcme = 3.1 := by
    simp [resolve_pct, apiRespAcme]
  have hpr : resolve_price apiRespAcme = 1234.5 := by
    norm_num [resolve_price, apiRespAcme, orTruthy]
  obtain ⟨s, hs, hver, hcp, ht1, _, _, hr1, _, _, _, hc1, _⟩ :=
    claim7_authoritative_signal apiRespAcme "Acme" rfl (by rw [hpr]; norm_num)
  refine ⟨s, hs, ?_, ?_, ?_, ?_, hver⟩
  · rw [hcp, hpr, formatPrice_concrete _ 123450 (by norm_num)]
    decide
  · exact ht1 (by rw [hpct]; norm_num)
  · exact hr1 (by rw [hpct]; norm_num)
  · exact hc1 (by rw [hpct, abs_of_pos (by norm_num : (0 : ℚ) < 3.1)]; norm_num)

/-- Claim C8, counterexample: a disambiguation summary is NOT discarded at
collection time — collecting with an encyclopedia page whose summary is
"Acme may refer to:" puts that very summary, disambiguation marker
included, into the profile description field handed downstream. -/
theorem claim8_counterexample :
    (collect_data "Acme" (AdapterOutcome.ok wikiAcme) (AdapterOutcome.ok [])
        (AdapterOutcome.ok []) "" AdapterOutcome.exn [] none).company_info.description
      = some "Acme may refer to:" ∧
    containsSub "may refer to" "Acme may refer to:" = true := by
  exact ⟨by decide, by decide⟩

/-- Claim C8 as amended: the disambiguation guard lives in the analyst, not
the collector — the collected profile can carry the marker, but the summary
step blanks every description whose 400-character truncation contains
either disambiguation marker, "can refer to" or "may refer to", so such a
description is never used in summarization. -/
theorem claim8_disambiguation_amended (ci : CompanyInfo)
    (h : containsSub "can refer to" (lowerStr (strTake (ci.description.getD "") 400)) = true ∨
      containsSub "may refer to" (lowerStr (strTake (ci.description.getD "") 400)) = true) :
    summary_description ci = "" := by
  rcases h with h | h <;> simp [summary_description, h]

/-- Witness for the amended claim C8 at two concrete disambiguation
descriptions, one per marker. -/
theorem claim8_amended_witness :
    summary_description
      { description := some "Acme may refer to:", url := none, title := none,
        official_url := none } = "" ∧
    summary_description
      { description := some "Acme can refer to several things.", url := none, title := none,
        official_url := none } = "" :=
  ⟨claim8_disambiguation_amended _ (Or.inr (by decide)),
   claim8_disambiguation_amended _ (Or.inl (by decide))⟩

/-- Claim C9, confirmed: an exception inside any single source adapter is
absorbed at that adapter boundary and its contribution becomes absent data;
an unexpected exception during the overall collection sequence stamps the
profile with the error quality tier, validation then fails, the sequencer
skips summarization for every possible analyst, and the caller still
receives the fixed degraded-but-valid analysis record. -/
theorem claim9_error_isolation (company_name msg : String)
    (wikiO : AdapterOutcome (String → WikiPage)) (newsO : AdapterOutcome (List NewsRaw))
    (webO : AdapterOutcome (List String)) (api_key : String) (apiO : AdapterOutcome ApiHttp)
    (webResults : List SearchResult) (analyst : CollectedData → AnalysisResults) :
    search_wikipedia_safe AdapterOutcome.exn company_name = none ∧
    search_news_safe AdapterOutcome.exn = [] ∧
    search_official_website_safe AdapterOutcome.exn = none ∧
    fetch_indian_api company_name AdapterOutcome.exn = none ∧
    (collect_data company_name wikiO newsO webO api_key apiO webResults
        (some msg)).data_quality = "error" ∧
    (collect_data company_name wikiO newsO webO api_key apiO webResults
        (some msg)).error = some msg ∧
    (run_workflow company_name wikiO newsO webO api_key apiO webResults (some msg)
        analyst).validation_passed = false ∧
    (run_workflow company_name wikiO newsO webO api_key apiO webResults (some msg)
        analyst).analysis_results = some
      { executive_summary := "⚠️ **Insufficient Data**\n\nNo reliable information found for "
          ++ company_name ++ "."
        market_insights := "**Data Not Available**"
        risks_opportunities := "**Data Not Available**"
        data_sources := "- No sources found"
        data_quality := "error" } := by
  exact ⟨rfl, rfl, rfl, rfl, rfl, rfl, rfl, rfl⟩

end StockPulse
